import Mathlib

/-!
Shallow embedding of `crates/net/network/src/manager.rs` (the reth
`NetworkManager` event loop) together with the parts of its collaborators
that the verified properties need.

Modelling conventions:
  - Opaque wire payloads (socket addresses, request bodies, oneshot reply
    channels, capability sets, client versions, ...) are represented by `Nat`
    identifiers: the manager only moves them around.
  - Calls into collaborators owned by other crates or files (the session
    manager, the peers manager, the network state, the block import pipeline)
    are recorded as `Effect` values in the order the source performs them.
  - Channels owned by the manager are part of `ManagerState`: the unbounded
    transactions channel is a list, the bounded eth-request channel is a
    queue with a capacity and a closed flag mirroring tokio `try_send`
    semantics.
  - Metric gauges/counters (`f64` / `u64` in the source, always set from
    `usize` counts) are `Nat`. `usize::saturating_sub` is `Nat` subtraction.
  - A Rust panic (the unreachable macro) is modelled by `Option.none`: a
    handler that can panic returns `Option`.
  - The `usize` wrap-around of `fetch_sub` at zero is not modelled (no
    verified property evaluates `num_active_peers` decrements at zero).
-/

namespace RethNet

/-- Peer identifier (public-key derived in the source; only equality is used). -/
abbrev PeerId := Nat

/-- Block hash (opaque to the manager). -/
abbrev Hash := Nat

/-- Network mode from `reth_network_api`: pre-merge proof of work vs post-merge
proof of stake. -/
inductive NetworkMode
  | work
  | stake
deriving DecidableEq, Repr

/-- `NetworkMode::is_stake`. -/
def NetworkMode.is_stake : NetworkMode → Bool
  | .work => false
  | .stake => true

/-- `NetworkConnectionState` from `swarm.rs`: `Active` is the default,
`ShuttingDown` is entered on shutdown request. -/
inductive NetworkConnectionState
  | active
  | shuttingDown
deriving DecidableEq, Repr

/-- Session direction. -/
inductive Direction
  | incoming
  | outgoing
deriving DecidableEq, Repr

/-- `Direction::is_incoming`. -/
def Direction.is_incoming : Direction → Bool
  | .incoming => true
  | .outgoing => false

/-- The devp2p `DisconnectReason` enum from `reth_eth_wire`. -/
inductive DisconnectReason
  | disconnectRequested
  | tcpSubsystemError
  | protocolBreach
  | uselessPeer
  | tooManyPeers
  | alreadyConnected
  | incompatibleP2PProtocolVersion
  | nullNodeIdentity
  | clientQuitting
  | unexpectedHandshakeIdentity
  | connectedToSelf
  | pingTimeout
  | subprotocolSpecific
deriving DecidableEq, Repr

/-- `ReputationChangeKind` from `reth_network_api`. -/
inductive ReputationChangeKind
  | badMessage
  | badBlock
  | badTransactions
  | badProtocol
  | failedToConnect
  | timeout
  | alreadyConnected
  | dropped
  | reset
deriving DecidableEq, Repr

/-- `NewBlockMessage { hash, block }`; the shared block payload is reduced to
the one field the manager reads from it (`block.number()`). -/
structure NewBlockMessage where
  hash : Hash
  number : Nat
deriving DecidableEq, Repr

/-- A session error as the manager observes it: the only thing the manager
extracts from it is `as_disconnected()`. -/
structure SessionError where
  asDisconnected : Option DisconnectReason
deriving DecidableEq, Repr

/-- `PeerRequest` (the eth request variants a session surfaces), payloads and
oneshot response channels reduced to identifiers. -/
inductive PeerRequest
  | getBlockHeaders (request : Nat) (response : Nat)
  | getBlockBodies (request : Nat) (response : Nat)
  | getNodeData (request : Nat) (response : Nat)
  | getReceipts (request : Nat) (response : Nat)
  | getPooledTransactions (request : Nat) (response : Nat)
deriving DecidableEq, Repr

/-- `PeerMessage`: messages surfaced by or sent to a session. -/
inductive PeerMessage
  | newBlockHashes (hashes : List Hash)
  | newBlock (block : NewBlockMessage)
  | pooledTransactions (msg : Nat)
  | ethRequest (req : PeerRequest)
  | receivedTransaction (msg : Nat)
  | sendTransactions (msg : Nat)
  | other (id : Nat)
deriving DecidableEq, Repr

/-- Shape predicate used in statements: is the message the `SendTransactions`
variant (whose manager arm is an unreachable panic). -/
def PeerMessage.isSendTransactions : PeerMessage → Bool
  | .sendTransactions _ => true
  | _ => false

/-- `IncomingEthRequest` from `eth_requests.rs`: what the manager places on the
bounded channel to the eth-request handler task. -/
inductive IncomingEthRequest
  | getBlockHeaders (peer : PeerId) (request : Nat) (response : Nat)
  | getBlockBodies (peer : PeerId) (request : Nat) (response : Nat)
  | getNodeData (peer : PeerId) (request : Nat) (response : Nat)
  | getReceipts (peer : PeerId) (request : Nat) (response : Nat)
deriving DecidableEq, Repr

/-- `NetworkTransactionEvent`: what the manager places on the unbounded channel
to the transactions manager task. -/
inductive NetworkTransactionEvent
  | incomingTransactions (peer : PeerId) (msg : Nat)
  | incomingPooledTransactionHashes (peer : PeerId) (msg : Nat)
  | getPooledTransactions (peer : PeerId) (request : Nat) (response : Nat)
deriving DecidableEq, Repr

/-- `NetworkEvent` broadcast to subscribers; payload fields in source order
(subscriber sinks are not modelled, broadcasts are logged). -/
inductive NetworkEvent
  | sessionClosed (peer : PeerId) (reason : Option DisconnectReason)
  | sessionEstablished (peer : PeerId) (remoteAddr : Nat) (clientVersion : Nat)
      (capabilities : Nat) (version : Nat) (status : Nat) (messages : Nat)
  | peerAdded (peer : PeerId)
  | peerRemoved (peer : PeerId)
deriving DecidableEq, Repr

/-- `NetworkHandleMessage`: commands the `NetworkHandle` sends to the manager. -/
inductive NetworkHandleMessage
  | eventListener (sink : Nat)
  | discoveryListener (sink : Nat)
  | announceBlock (block : Nat) (hash : Hash)
  | ethRequest (peer : PeerId) (request : PeerRequest)
  | sendTransaction (peer : PeerId) (msg : Nat)
  | sendPooledTransactionHashes (peer : PeerId) (msg : Nat)
  | addPeerAddress (peer : PeerId) (kind : Nat) (addr : Nat)
  | removePeer (peer : PeerId) (kind : Nat)
  | disconnectPeer (peer : PeerId) (reason : Option DisconnectReason)
  | shutdown (tx : Nat)
  | reputationChange (peer : PeerId) (kind : ReputationChangeKind)
  | getReputationById (peer : PeerId) (tx : Nat)
  | fetchClient (tx : Nat)
  | getStatus (tx : Nat)
  | statusUpdate (head : Nat)
  | getPeerInfo (tx : Nat)
  | getPeerInfoById (peer : PeerId) (tx : Nat)
deriving DecidableEq, Repr

/-- `BlockValidation` from `import.rs`. -/
inductive BlockValidation
  | validHeader (block : NewBlockMessage)
  | validBlock (block : NewBlockMessage)
deriving DecidableEq, Repr

/-- The `Result<BlockValidation, _>` carried by a block import outcome; the
error payload is opaque to the manager. -/
inductive BlockImportResult
  | ok (validated : BlockValidation)
  | error
deriving DecidableEq, Repr

/-- `BlockImportOutcome { peer, result }`. -/
structure BlockImportOutcome where
  peer : PeerId
  result : BlockImportResult
deriving DecidableEq, Repr

/-- `SwarmEvent` from `swarm.rs`, fields in source order. -/
inductive SwarmEvent
  | validMessage (peer : PeerId) (message : PeerMessage)
  | invalidCapabilityMessage (peer : PeerId) (capabilities : Nat) (message : Nat)
  | tcpListenerClosed (remoteAddr : Nat)
  | tcpListenerError (err : Nat)
  | incomingTcpConnection (remoteAddr : Nat) (sessionId : Nat)
  | outgoingTcpConnection (remoteAddr : Nat) (peer : PeerId)
  | sessionEstablished (peer : PeerId) (remoteAddr : Nat) (clientVersion : Nat)
      (capabilities : Nat) (version : Nat) (messages : Nat) (status : Nat)
      (direction : Direction)
  | peerAdded (peer : PeerId)
  | peerRemoved (peer : PeerId)
  | sessionClosed (peer : PeerId) (remoteAddr : Nat) (error : Option SessionError)
  | incomingPendingSessionClosed (remoteAddr : Nat) (error : Option SessionError)
  | outgoingPendingSessionClosed (remoteAddr : Nat) (peer : PeerId)
      (error : Option SessionError)
  | outgoingConnectionError (remoteAddr : Nat) (peer : PeerId) (error : Nat)
  | badMessage (peer : PeerId)
  | protocolBreach (peer : PeerId)
deriving DecidableEq, Repr

/-- Calls the manager makes into collaborators it does not own inline
(session manager, peers manager, network state, block import, oneshot reply
channels), recorded in the order the source performs them. -/
inductive Effect
  | disconnect (peer : PeerId) (reason : Option DisconnectReason)
  | disconnectAll (reason : Option DisconnectReason)
  | disconnectAllPending
  | onShutdownRequested
  | sendMessage (peer : PeerId) (msg : PeerMessage)
  | onNewBlockHashes (peer : PeerId) (hashes : List Hash)
  | onNewBlock (peer : PeerId) (hash : Hash)
  | importNewBlock (peer : PeerId) (block : NewBlockMessage)
  | updatePeerBlock (peer : PeerId) (hash : Hash) (number : Nat)
  | announceNewBlock (block : NewBlockMessage)
  | announceNewBlockHash (block : NewBlockMessage)
  | applyReputationChange (peer : PeerId) (kind : ReputationChangeKind)
  | addPeerKind (peer : PeerId) (kind : Nat) (addr : Nat)
  | removePeerKind (peer : PeerId) (kind : Nat)
  | addDiscoveryListener (sink : Nat)
  | updateForkId (forkId : Nat)
  | sessionsOnStatusUpdate (head : Nat)
  | oneshotSend (tx : Nat)
  | replyGetReputation (peer : PeerId) (tx : Nat)
  | replyFetchClient (tx : Nat)
  | replyStatus (tx : Nat)
  | replyPeerInfo (tx : Nat)
  | replyPeerInfoById (peer : PeerId) (tx : Nat)
  | onIncomingSessionEstablished (peer : PeerId) (remoteAddr : Nat)
  | onActiveSessionDropped (remoteAddr : Nat) (peer : PeerId) (err : SessionError)
  | onActiveSessionGracefullyClosed (peer : PeerId)
  | onIncomingPendingSessionDropped (remoteAddr : Nat) (err : SessionError)
  | onIncomingPendingSessionGracefullyClosed
  | onPendingSessionDropped (remoteAddr : Nat) (peer : PeerId) (err : SessionError)
  | onPendingSessionGracefullyClosed (peer : PeerId)
  | onOutgoingConnectionFailure (remoteAddr : Nat) (peer : PeerId) (err : Nat)
deriving DecidableEq, Repr

/-- Observable counters of the peers manager that the metric arms read
(`num_inbound_connections`, `num_outbound_connections`, `num_known_peers`,
`num_backed_off_peers`). The peers manager itself is a collaborator; its
mutators appear as `Effect`s and these read-side counters are carried as
data. -/
structure PeersCounters where
  numInbound : Nat
  numOutbound : Nat
  numKnown : Nat
  numBackedOff : Nat
deriving DecidableEq, Repr

/-- `NetworkMetrics` and `total_dropped_eth_requests_at_full_capacity`;
gauges and counters as `Nat`. -/
structure NetworkMetrics where
  connectedPeers : Nat
  incomingConnections : Nat
  outgoingConnections : Nat
  trackedPeers : Nat
  backedOffPeers : Nat
  closedSessions : Nat
  pendingSessionFailures : Nat
  invalidMessagesReceived : Nat
  totalIncomingConnections : Nat
  totalOutgoingConnections : Nat
  totalDroppedEthRequestsAtFullCapacity : Nat
deriving DecidableEq, Repr

/-- The bounded channel to the eth-request handler task, with tokio
`try_send` semantics: sending on a closed channel fails with `Closed`,
sending on a full channel fails with `Full`. -/
structure EthRequestChannel where
  capacity : Nat
  queue : List IncomingEthRequest
  closed : Bool
deriving DecidableEq, Repr

/-- The manager-owned state that the verified properties observe. -/
structure ManagerState where
  mode : NetworkMode
  connState : NetworkConnectionState
  numActivePeers : Nat
  eventListeners : List Nat
  eventBroadcasts : List NetworkEvent
  toTransactionsManager : Option (List NetworkTransactionEvent)
  toEthRequestHandler : Option EthRequestChannel
  peers : PeersCounters
  metrics : NetworkMetrics
  disconnectMetrics : List DisconnectReason
deriving DecidableEq, Repr

/-- `NetworkManager::notify_tx_manager`: send on the unbounded transactions
channel if configured, otherwise do nothing. -/
def notify_tx_manager (st : ManagerState) (event : NetworkTransactionEvent) :
    ManagerState :=
  match st.toTransactionsManager with
  | some q => { st with toTransactionsManager := some (q ++ [event]) }
  | none => st

/-- `NetworkManager::delegate_eth_request`: `try_send` on the bounded
eth-request channel if configured; on `Full` increment
`total_dropped_eth_requests_at_full_capacity` and drop the request; on
`Closed` just drop it. -/
def delegate_eth_request (st : ManagerState) (event : IncomingEthRequest) :
    ManagerState :=
  match st.toEthRequestHandler with
  | none => st
  | some ch =>
    if ch.closed then st
    else if ch.queue.length < ch.capacity then
      let ch2 := { ch with queue := ch.queue ++ [event] }
      { st with toEthRequestHandler := some ch2 }
    else
      let n := st.metrics.totalDroppedEthRequestsAtFullCapacity + 1
      { st with metrics := { st.metrics with totalDroppedEthRequestsAtFullCapacity := n } }

/-- `NetworkManager::on_eth_request`: dispatch a `PeerRequest` either to the
eth-request handler channel or (for pooled transactions) to the transactions
manager channel. -/
def on_eth_request (st : ManagerState) (peer : PeerId) (req : PeerRequest) :
    ManagerState :=
  match req with
  | .getBlockHeaders request response =>
      delegate_eth_request st (.getBlockHeaders peer request response)
  | .getBlockBodies request response =>
      delegate_eth_request st (.getBlockBodies peer request response)
  | .getNodeData request response =>
      delegate_eth_request st (.getNodeData peer request response)
  | .getReceipts request response =>
      delegate_eth_request st (.getReceipts peer request response)
  | .getPooledTransactions request response =>
      notify_tx_manager st (.getPooledTransactions peer request response)

/-- `NetworkManager::within_pow_or_disconnect` (EIP-3675): in proof of stake,
disconnect the peer with `SubprotocolSpecific`; in proof of work, run the
closure. -/
def within_pow_or_disconnect (st : ManagerState) (peer : PeerId)
    (only_pow : ManagerState → ManagerState × List Effect) :
    ManagerState × List Effect :=
  if st.mode.is_stake then
    (st, [Effect.disconnect peer (some DisconnectReason.subprotocolSpecific)])
  else
    only_pow st

/-- `NetworkManager::on_peer_message`. The `SendTransactions` arm is
the unreachable macro in the source (comment: Not emitted by session), modelled as `none`
(a panic). -/
def on_peer_message (st : ManagerState) (peer : PeerId) (msg : PeerMessage) :
    Option (ManagerState × List Effect) :=
  match msg with
  | .newBlockHashes hashes =>
      some (within_pow_or_disconnect st peer fun s =>
        (s, [Effect.onNewBlockHashes peer hashes]))
  | .newBlock block =>
      some (within_pow_or_disconnect st peer fun s =>
        (s, [Effect.onNewBlock peer block.hash, Effect.importNewBlock peer block]))
  | .pooledTransactions msg =>
      some (notify_tx_manager st (.incomingPooledTransactionHashes peer msg), [])
  | .ethRequest req =>
      some (on_eth_request st peer req, [])
  | .receivedTransaction msg =>
      some (notify_tx_manager st (.incomingTransactions peer msg), [])
  | .sendTransactions _ => none
  | .other _ => some (st, [])

/-- `NetworkManager::on_invalid_message`: apply a `BadProtocol` reputation
change. -/
def on_invalid_message (st : ManagerState) (peer : PeerId) :
    ManagerState × List Effect :=
  (st, [Effect.applyReputationChange peer .badProtocol])

/-- `NetworkManager::on_block_import_result`. -/
def on_block_import_result (st : ManagerState) (outcome : BlockImportOutcome) :
    ManagerState × List Effect :=
  match outcome.result with
  | .ok (.validHeader block) =>
      (st, [Effect.updatePeerBlock outcome.peer block.hash block.number,
            Effect.announceNewBlock block])
  | .ok (.validBlock block) =>
      (st, [Effect.announceNewBlockHash block])
  | .error =>
      (st, [Effect.applyReputationChange outcome.peer .badBlock])

/-- The one collaborator return value `on_handle_message` branches on:
`SessionManager::on_status_update` may report a fork transition. -/
structure SessionsOracle where
  onStatusUpdate : Nat → Option Nat

/-- `NetworkManager::on_handle_message`. -/
def on_handle_message (orc : SessionsOracle) (st : ManagerState)
    (msg : NetworkHandleMessage) : ManagerState × List Effect :=
  match msg with
  | .eventListener sink =>
      ({ st with eventListeners := st.eventListeners ++ [sink] }, [])
  | .discoveryListener sink =>
      (st, [Effect.addDiscoveryListener sink])
  | .announceBlock block hash =>
      if st.mode.is_stake then (st, [])
      else (st, [Effect.announceNewBlock ⟨hash, block⟩])
  | .ethRequest peer request =>
      (st, [Effect.sendMessage peer (.ethRequest request)])
  | .sendTransaction peer msg =>
      (st, [Effect.sendMessage peer (.sendTransactions msg)])
  | .sendPooledTransactionHashes peer msg =>
      (st, [Effect.sendMessage peer (.pooledTransactions msg)])
  | .addPeerAddress peer kind addr =>
      if st.connState = NetworkConnectionState.shuttingDown then (st, [])
      else (st, [Effect.addPeerKind peer kind addr])
  | .removePeer peer kind =>
      (st, [Effect.removePeerKind peer kind])
  | .disconnectPeer peer reason =>
      (st, [Effect.disconnect peer reason])
  | .shutdown tx =>
      ({ st with connState := NetworkConnectionState.shuttingDown },
       [Effect.onShutdownRequested,
        Effect.disconnectAll (some DisconnectReason.clientQuitting),
        Effect.disconnectAllPending,
        Effect.oneshotSend tx])
  | .reputationChange peer kind =>
      (st, [Effect.applyReputationChange peer kind])
  | .getReputationById peer tx =>
      (st, [Effect.replyGetReputation peer tx])
  | .fetchClient tx =>
      (st, [Effect.replyFetchClient tx])
  | .getStatus tx =>
      (st, [Effect.replyStatus tx])
  | .statusUpdate head =>
      match orc.onStatusUpdate head with
      | some transition =>
          (st, [Effect.sessionsOnStatusUpdate head, Effect.updateForkId transition])
      | none =>
          (st, [Effect.sessionsOnStatusUpdate head])
  | .getPeerInfo tx =>
      (st, [Effect.replyPeerInfo tx])
  | .getPeerInfoById peer tx =>
      (st, [Effect.replyPeerInfoById peer tx])

/-- The swarm-event match inside `NetworkManager::poll`, one source arm per
case; `none` propagates the `ValidMessage`/`SendTransactions` panic. -/
def handle_swarm_event (st : ManagerState) (event : SwarmEvent) :
    Option (ManagerState × List Effect) :=
  match event with
  | .validMessage peer message =>
      on_peer_message st peer message
  | .invalidCapabilityMessage peer _capabilities _message =>
      let r := on_invalid_message st peer
      some ({ r.1 with metrics := { r.1.metrics with
                invalidMessagesReceived := r.1.metrics.invalidMessagesReceived + 1 } },
            r.2)
  | .tcpListenerClosed _remoteAddr => some (st, [])
  | .tcpListenerError _err => some (st, [])
  | .incomingTcpConnection _remoteAddr _sessionId =>
      some ({ st with metrics := { st.metrics with
                totalIncomingConnections := st.metrics.totalIncomingConnections + 1,
                incomingConnections := st.peers.numInbound } }, [])
  | .outgoingTcpConnection _remoteAddr _peer =>
      some ({ st with metrics := { st.metrics with
                totalOutgoingConnections := st.metrics.totalOutgoingConnections + 1,
                outgoingConnections := st.peers.numOutbound } }, [])
  | .sessionEstablished peer remoteAddr clientVersion capabilities version
      messages status direction =>
      let totalActive := st.numActivePeers + 1
      some ({ st with
                numActivePeers := totalActive,
                metrics := { st.metrics with connectedPeers := totalActive },
                eventBroadcasts := st.eventBroadcasts ++
                  [NetworkEvent.sessionEstablished peer remoteAddr clientVersion
                    capabilities version status messages] },
            if direction.is_incoming then
              [Effect.onIncomingSessionEstablished peer remoteAddr]
            else [])
  | .peerAdded peer =>
      some ({ st with
                eventBroadcasts := st.eventBroadcasts ++ [NetworkEvent.peerAdded peer],
                metrics := { st.metrics with trackedPeers := st.peers.numKnown } }, [])
  | .peerRemoved peer =>
      some ({ st with
                eventBroadcasts := st.eventBroadcasts ++ [NetworkEvent.peerRemoved peer],
                metrics := { st.metrics with trackedPeers := st.peers.numKnown } }, [])
  | .sessionClosed peer remoteAddr error =>
      let totalActive := st.numActivePeers - 1
      let reason : Option DisconnectReason :=
        match error with
        | some err => err.asDisconnected
        | none => none
      let histogram : List DisconnectReason :=
        match reason with
        | some r => st.disconnectMetrics ++ [r]
        | none => st.disconnectMetrics
      some ({ st with
                numActivePeers := totalActive,
                metrics := { st.metrics with
                  connectedPeers := totalActive,
                  closedSessions := st.metrics.closedSessions + 1,
                  incomingConnections := st.peers.numInbound,
                  outgoingConnections := st.peers.numOutbound,
                  backedOffPeers := st.peers.numBackedOff - 1 },
                disconnectMetrics := histogram,
                eventBroadcasts := st.eventBroadcasts ++
                  [NetworkEvent.sessionClosed peer reason] },
            match error with
            | some err => [Effect.onActiveSessionDropped remoteAddr peer err]
            | none => [Effect.onActiveSessionGracefullyClosed peer])
  | .incomingPendingSessionClosed remoteAddr error =>
      match error with
      | some err =>
          let histogram : List DisconnectReason :=
            match err.asDisconnected with
            | some r => st.disconnectMetrics ++ [r]
            | none => st.disconnectMetrics
          some ({ st with
                    metrics := { st.metrics with
                      pendingSessionFailures := st.metrics.pendingSessionFailures + 1,
                      closedSessions := st.metrics.closedSessions + 1,
                      incomingConnections := st.peers.numInbound,
                      backedOffPeers := st.peers.numBackedOff - 1 },
                    disconnectMetrics := histogram },
                [Effect.onIncomingPendingSessionDropped remoteAddr err])
      | none =>
          some ({ st with
                    metrics := { st.metrics with
                      closedSessions := st.metrics.closedSessions + 1,
                      incomingConnections := st.peers.numInbound,
                      backedOffPeers := st.peers.numBackedOff - 1 } },
                [Effect.onIncomingPendingSessionGracefullyClosed])
  | .outgoingPendingSessionClosed remoteAddr peer error =>
      match error with
      | some err =>
          let histogram : List DisconnectReason :=
            match err.asDisconnected with
            | some r => st.disconnectMetrics ++ [r]
            | none => st.disconnectMetrics
          some ({ st with
                    metrics := { st.metrics with
                      pendingSessionFailures := st.metrics.pendingSessionFailures + 1,
                      closedSessions := st.metrics.closedSessions + 1,
                      outgoingConnections := st.peers.numOutbound,
                      backedOffPeers := st.peers.numBackedOff - 1 },
                    disconnectMetrics := histogram },
                [Effect.onPendingSessionDropped remoteAddr peer err])
      | none =>
          some ({ st with
                    metrics := { st.metrics with
                      closedSessions := st.metrics.closedSessions + 1,
                      outgoingConnections := st.peers.numOutbound,
                      backedOffPeers := st.peers.numBackedOff - 1 } },
                [Effect.onPendingSessionGracefullyClosed peer])
  | .outgoingConnectionError remoteAddr peer error =>
      some ({ st with
                metrics := { st.metrics with
                  outgoingConnections := st.peers.numOutbound,
                  backedOffPeers := st.peers.numBackedOff - 1 } },
            [Effect.onOutgoingConnectionFailure remoteAddr peer error])
  | .badMessage peer =>
      some ({ st with metrics := { st.metrics with
                invalidMessagesReceived := st.metrics.invalidMessagesReceived + 1 } },
            [Effect.applyReputationChange peer .badMessage])
  | .protocolBreach peer =>
      some (st, [Effect.applyReputationChange peer .badProtocol])

/-- Shape predicate used in statements: is this the one swarm event whose
handling panics (`ValidMessage` carrying `SendTransactions`). -/
def SwarmEvent.panicsOnHandle : SwarmEvent → Bool
  | .validMessage _ (.sendTransactions _) => true
  | _ => false

/-- One `poll` invocation sees three input sources: the outcomes the
block-import collaborator yields before returning pending, the commands the handle channel
yields before returning pending (`cmdsClosed` records whether the channel
instead reported closure after them), and the events the swarm yields before
returning pending. -/
structure PollInput where
  imports : List BlockImportOutcome
  cmds : List NetworkHandleMessage
  cmdsClosed : Bool
  events : List SwarmEvent
deriving DecidableEq, Repr

/-- Trace entry: one handler invocation performed by `poll`, in order. -/
inductive Action
  | importOutcome (outcome : BlockImportOutcome)
  | handleCmd (cmd : NetworkHandleMessage)
  | swarmEvent (event : SwarmEvent)
deriving DecidableEq, Repr

/-- Shape predicate used in statements: is this a swarm-phase trace entry. -/
def Action.isSwarmEvent : Action → Bool
  | .swarmEvent _ => true
  | _ => false

/-- `Poll` result of one `NetworkManager::poll` invocation. -/
inductive PollResult
  | ready
  | pending
deriving DecidableEq, Repr

/-- Phase 1 of `poll`: drain the block import to exhaustion. -/
def run_imports : ManagerState → List BlockImportOutcome → ManagerState × List Action
  | st, [] => (st, [])
  | st, outcome :: rest =>
      let st2 := (on_block_import_result st outcome).1
      let r := run_imports st2 rest
      (r.1, Action.importOutcome outcome :: r.2)

/-- Phase 2 of `poll`: drain the handle-command channel. -/
def run_cmds (orc : SessionsOracle) :
    ManagerState → List NetworkHandleMessage → ManagerState × List Action
  | st, [] => (st, [])
  | st, cmd :: rest =>
      let st2 := (on_handle_message orc st cmd).1
      let r := run_cmds orc st2 rest
      (r.1, Action.handleCmd cmd :: r.2)

/-- Phase 3 of `poll`: advance the swarm under the preemption budget. The
source handles the event first, then decrements the budget, and when it hits
zero calls `wake_by_ref` and breaks; the returned `Bool` records whether that
self-wakeup was scheduled. `none` propagates a handler panic. -/
def swarm_loop (st : ManagerState) (events : List SwarmEvent) (budget : Nat) :
    Option (ManagerState × List Action × Bool) :=
  match events with
  | [] => some (st, [], false)
  | event :: rest =>
      match handle_swarm_event st event with
      | none => none
      | some (st2, _) =>
          if budget - 1 = 0 then
            some (st2, [Action.swarmEvent event], true)
          else
            match swarm_loop st2 rest (budget - 1) with
            | none => none
            | some (st3, tr, woke) =>
                some (st3, Action.swarmEvent event :: tr, woke)

/-- `NetworkManager::poll` (`impl Future for NetworkManager`): phase 1 drains
block imports, phase 2 drains handle commands and returns `Ready` if the
channel reports closure, phase 3 advances the swarm with budget 1024 and the
function returns `Pending`. `none` propagates a handler panic. -/
def poll (orc : SessionsOracle) (st : ManagerState) (inp : PollInput) :
    Option (PollResult × ManagerState × List Action × Bool) :=
  let r1 := run_imports st inp.imports
  let r2 := run_cmds orc r1.1 inp.cmds
  if inp.cmdsClosed then
    some (PollResult.ready, r2.1, r1.2 ++ r2.2, false)
  else
    match swarm_loop r2.1 inp.events 1024 with
    | none => none
    | some (st3, tr3, woke) =>
        some (PollResult.pending, st3, r1.2 ++ r2.2 ++ tr3, woke)

/-- Modelled from the spec: the Session Manager (`session/mod.rs` is not part
of the provided sources) enforces at most one session per peer; on a
completed handshake for a peer that already has an established session the
newer session is rejected, first-established wins, and no
`SessionEstablished` swarm event is emitted for it (spec section 4.3). -/
structure SessionsState where
  established : List PeerId
deriving DecidableEq, Repr

/-- Modelled from the spec: outcome of a completed handshake at the Session
Manager; `true` means the session was accepted and a `SessionEstablished`
swarm event is emitted to the manager. -/
def sessions_on_established (ss : SessionsState) (peer : PeerId) :
    SessionsState × Bool :=
  if peer ∈ ss.established then (ss, false)
  else ({ established := peer :: ss.established }, true)

/-- Composition of the spec-modelled Session Manager acceptance with the
manager source arm for `SwarmEvent::SessionEstablished`: the manager arm runs
only when the Session Manager accepted the session and emitted the event.
The manager arm never panics, so the `getD` default is unreachable. -/
def system_on_session_established (ss : SessionsState) (st : ManagerState)
    (peer : PeerId) (remoteAddr clientVersion capabilities version messages status : Nat)
    (direction : Direction) : SessionsState × ManagerState :=
  let r := sessions_on_established ss peer
  if r.2 then
    (r.1, ((handle_swarm_event st (.sessionEstablished peer remoteAddr clientVersion
        capabilities version messages status direction)).getD (st, [])).1)
  else
    (r.1, st)

/-- Zeroed metrics, matching `Default` in the source. -/
def initMetrics : NetworkMetrics := ⟨0, 0, 0, 0, 0, 0, 0, 0, 0, 0, 0⟩

/-- Peers-manager counters of an empty peer set. -/
def initPeersCounters : PeersCounters := ⟨0, 0, 0, 0⟩

/-- The manager state right after `NetworkManager::new` in proof-of-work mode:
no channels configured, no listeners, zero counters, `Active` connection
state. -/
def initState : ManagerState where
  mode := NetworkMode.work
  connState := NetworkConnectionState.active
  numActivePeers := 0
  eventListeners := []
  eventBroadcasts := []
  toTransactionsManager := none
  toEthRequestHandler := none
  peers := initPeersCounters
  metrics := initMetrics
  disconnectMetrics := []

/-- An oracle reporting no fork transition; used for concrete runs. -/
def noForkOracle : SessionsOracle := ⟨fun _ => none⟩

theorem run_imports_trace (st : ManagerState) (l : List BlockImportOutcome) :
    (run_imports st l).2 = l.map Action.importOutcome := by
  induction l generalizing st with
  | nil => rfl
  | cons o rest ih => simp [run_imports, ih]

theorem run_cmds_trace (orc : SessionsOracle) (st : ManagerState)
    (l : List NetworkHandleMessage) :
    (run_cmds orc st l).2 = l.map Action.handleCmd := by
  induction l generalizing st with
  | nil => rfl
  | cons c rest ih => simp [run_cmds, ih]

theorem handle_swarm_event_total (st : ManagerState) (e : SwarmEvent)
    (h : e.panicsOnHandle = false) : (handle_swarm_event st e).isSome = true := by
  cases e with
  | validMessage peer message =>
      cases message with
      | sendTransactions m => simp [SwarmEvent.panicsOnHandle] at h
      | newBlockHashes hashes => rfl
      | newBlock block => rfl
      | pooledTransactions msg => rfl
      | ethRequest req => rfl
      | receivedTransaction msg => rfl
      | other id => rfl
  | incomingPendingSessionClosed remoteAddr error => cases error <;> rfl
  | outgoingPendingSessionClosed remoteAddr peer error => cases error <;> rfl
  | invalidCapabilityMessage peer capabilities message => rfl
  | tcpListenerClosed remoteAddr => rfl
  | tcpListenerError err => rfl
  | incomingTcpConnection remoteAddr sessionId => rfl
  | outgoingTcpConnection remoteAddr peer => rfl
  | sessionEstablished p a c v w m s d => rfl
  | peerAdded peer => rfl
  | peerRemoved peer => rfl
  | sessionClosed peer remoteAddr error => rfl
  | outgoingConnectionError remoteAddr peer error => rfl
  | badMessage peer => rfl
  | protocolBreach peer => rfl

theorem swarm_loop_trace (events : List SwarmEvent) (st : ManagerState)
    (budget : Nat) (hb : 1 ≤ budget)
    (hok : (events.take budget).all (fun e => !e.panicsOnHandle) = true) :
    ∃ st3 woke,
      swarm_loop st events budget =
        some (st3, (events.take budget).map Action.swarmEvent, woke) := by
  induction events generalizing st budget with
  | nil => exact ⟨st, false, by simp [swarm_loop]⟩
  | cons e rest ih =>
      cases budget with
      | zero => omega
      | succ b =>
          simp only [List.take_succ_cons, List.all_cons, Bool.and_eq_true,
            Bool.not_eq_true'] at hok
          obtain ⟨he, hrest⟩ := hok
          obtain ⟨r, hr⟩ := Option.isSome_iff_exists.mp
            (handle_swarm_event_total st e he)
          obtain ⟨st2, effs⟩ := r
          cases b with
          | zero =>
              refine ⟨st2, true, ?_⟩
              simp [swarm_loop, hr]
          | succ b2 =>
              obtain ⟨st3, woke, hloop⟩ := ih st2 (b2 + 1) (by omega) hrest
              refine ⟨st3, woke, ?_⟩
              simp [swarm_loop, hr, hloop]

theorem swarm_loop_budget (events : List SwarmEvent) (st st3 : ManagerState)
    (budget : Nat) (tr : List Action) (woke : Bool) (hb : 1 ≤ budget)
    (h : swarm_loop st events budget = some (st3, tr, woke)) :
    tr.length ≤ budget ∧ (woke = true ↔ tr.length = budget) := by
  induction events generalizing st st3 budget tr woke with
  | nil =>
      simp only [swarm_loop, Option.some.injEq, Prod.mk.injEq] at h
      obtain ⟨-, htr, hwoke⟩ := h
      subst htr
      subst hwoke
      refine ⟨by simp, fun hw => by simp at hw, fun hlen => ?_⟩
      exact absurd hlen (by simp only [List.length_nil]; omega)
  | cons e rest ih =>
      simp only [swarm_loop] at h
      cases hr : handle_swarm_event st e with
      | none => simp [hr] at h
      | some r =>
          obtain ⟨st2, effs⟩ := r
          simp only [hr] at h
          split at h
          · rename_i hz
            simp only [Option.some.injEq, Prod.mk.injEq] at h
            obtain ⟨-, htr, hwoke⟩ := h
            subst htr
            subst hwoke
            have hbudget : budget = 1 := by omega
            simp [hbudget]
          · rename_i hz
            cases hloop : swarm_loop st2 rest (budget - 1) with
            | none => simp [hloop] at h
            | some r2 =>
                obtain ⟨st4, tr4, woke4⟩ := r2
                simp only [hloop, Option.some.injEq, Prod.mk.injEq] at h
                obtain ⟨-, htr, hwoke⟩ := h
                subst htr
                subst hwoke
                have hrec := ih st2 st4 (budget - 1) tr4 woke4 (by omega) hloop
                constructor
                · simp only [List.length_cons]
                  omega
                · simp only [List.length_cons]
                  rw [hrec.2]
                  omega

theorem swarm_loop_actions (events : List SwarmEvent) (st st3 : ManagerState)
    (budget : Nat) (tr : List Action) (woke : Bool)
    (h : swarm_loop st events budget = some (st3, tr, woke)) :
    ∀ a ∈ tr, a.isSwarmEvent = true := by
  induction events generalizing st st3 budget tr woke with
  | nil =>
      simp only [swarm_loop, Option.some.injEq, Prod.mk.injEq] at h
      obtain ⟨-, htr, -⟩ := h
      subst htr
      simp
  | cons e rest ih =>
      simp only [swarm_loop] at h
      cases hr : handle_swarm_event st e with
      | none => simp [hr] at h
      | some r =>
          obtain ⟨st2, effs⟩ := r
          simp only [hr] at h
          split at h
          · simp only [Option.some.injEq, Prod.mk.injEq] at h
            obtain ⟨-, htr, -⟩ := h
            subst htr
            simp [Action.isSwarmEvent]
          · cases hloop : swarm_loop st2 rest (budget - 1) with
            | none => simp [hloop] at h
            | some r2 =>
                obtain ⟨st4, tr4, woke4⟩ := r2
                simp only [hloop, Option.some.injEq, Prod.mk.injEq] at h
                obtain ⟨-, htr, -⟩ := h
                subst htr
                intro a ha
                simp only [List.mem_cons] at ha
                cases ha with
                | inl ha => subst ha; rfl
                | inr ha => exact ih st2 st4 (budget - 1) tr4 woke4 hloop a ha

/-- C1 counterexample: the claim states that `on_peer_message` returns
normally for every `PeerMessage` including the `SendTransactions` variant,
but the `SendTransactions` arm is a deliberate unreachable panic in the source:
on that concrete input the handler panics (modelled as `none`) instead of
returning. -/
theorem c1_send_transactions_panics :
    on_peer_message initState 0 (PeerMessage.sendTransactions 0) = none := rfl

/-- C1 amended: for every peer-caused `PeerMessage` other than the
`SendTransactions` variant, `on_peer_message` returns normally (never
panics); the `SendTransactions` arm alone is a deliberate unreachable path
that aborts if ever delivered. -/
theorem c1_no_panic_except_send_transactions (st : ManagerState) (peer : PeerId)
    (msg : PeerMessage) (h : msg.isSendTransactions = false) :
    (on_peer_message st peer msg).isSome = true := by
  cases msg with
  | sendTransactions m => simp [PeerMessage.isSendTransactions] at h
  | newBlockHashes hashes => rfl
  | newBlock block => rfl
  | pooledTransactions m => rfl
  | ethRequest req => rfl
  | receivedTransaction m => rfl
  | other id => rfl

/-- C1 witness: the amended theorem applied at a concrete non
`SendTransactions` message. -/
theorem c1_witness :
    (PeerMessage.other 5).isSendTransactions = false ∧
      (on_peer_message initState 0 (PeerMessage.other 5)).isSome = true :=
  ⟨rfl, c1_no_panic_except_send_transactions initState 0 (PeerMessage.other 5) rfl⟩

/-- C2 counterexample: delivered swarm-event sequences are handled by the
manager without any dedup; a second `SessionEstablished` swarm event for
peer 7 (whose session the first event already established) increments
`num_active_peers` a second time (to 2) and appends a second
`NetworkEvent::SessionEstablished` broadcast (two broadcasts total). -/
theorem c2_manager_double_counts_duplicate_session_established :
    ((handle_swarm_event initState
        (SwarmEvent.sessionEstablished 7 1 2 3 4 5 6 Direction.incoming)).bind
      (fun r => handle_swarm_event r.1
        (SwarmEvent.sessionEstablished 7 1 2 3 4 5 6 Direction.incoming))).map
      (fun r => (r.1.numActivePeers, r.1.eventBroadcasts.length)) = some (2, 2) := rfl

/-- C2 amended: the manager arm unconditionally counts and broadcasts each
`SessionEstablished` event it receives; the at-most-one-session guarantee is
enforced upstream by the Session Manager, which rejects a completed handshake
for a peer whose session is already established and emits no event for it, so
the composed system performs no second increment and no second broadcast. -/
theorem c2_no_double_count_with_session_manager (ss : SessionsState)
    (st : ManagerState) (peer : PeerId)
    (remoteAddr clientVersion capabilities version messages status : Nat)
    (direction : Direction) (h : peer ∈ ss.established) :
    system_on_session_established ss st peer remoteAddr clientVersion capabilities
      version messages status direction = (ss, st) := by
  simp [system_on_session_established, sessions_on_established, h]

/-- C2 witness: the amended theorem applied with peer 7 already established. -/
theorem c2_witness :
    (7 : PeerId) ∈ (SessionsState.mk [7]).established ∧
      system_on_session_established ⟨[7]⟩ initState 7 1 2 3 4 5 6
        Direction.incoming = (⟨[7]⟩, initState) :=
  ⟨by decide,
   c2_no_double_count_with_session_manager ⟨[7]⟩ initState 7 1 2 3 4 5 6
     Direction.incoming (by decide)⟩

/-- C3: EIP-3675 gating of block-propagation messages. In proof of stake,
`NewBlockHashes` and `NewBlock` each cause exactly a session-manager
`disconnect(peer, SubprotocolSpecific)` with no change to manager state, no
seen-block-set update and no block-import call; in proof of work,
`NewBlockHashes` updates the peer seen-block set and `NewBlock` records the
hash in the seen-block set and forwards the block to the block importer. -/
theorem c3_eip3675_block_message_gating (st : ManagerState) (peer : PeerId)
    (hashes : List Hash) (block : NewBlockMessage) :
    (st.mode.is_stake = true →
      on_peer_message st peer (PeerMessage.newBlockHashes hashes) =
        some (st, [Effect.disconnect peer
          (some DisconnectReason.subprotocolSpecific)]) ∧
      on_peer_message st peer (PeerMessage.newBlock block) =
        some (st, [Effect.disconnect peer
          (some DisconnectReason.subprotocolSpecific)])) ∧
    (st.mode.is_stake = false →
      on_peer_message st peer (PeerMessage.newBlockHashes hashes) =
        some (st, [Effect.onNewBlockHashes peer hashes]) ∧
      on_peer_message st peer (PeerMessage.newBlock block) =
        some (st, [Effect.onNewBlock peer block.hash,
                   Effect.importNewBlock peer block])) := by
  constructor
  · intro h
    constructor <;> simp [on_peer_message, within_pow_or_disconnect, h]
  · intro h
    constructor <;> simp [on_peer_message, within_pow_or_disconnect, h]

/-- C3 witness: both modes exercised at concrete inputs (peer 3, two hashes,
one block). -/
theorem c3_witness :
    (initState.mode.is_stake = false ∧
      on_peer_message initState 3 (PeerMessage.newBlockHashes [1, 2]) =
        some (initState, [Effect.onNewBlockHashes 3 [1, 2]]) ∧
      on_peer_message initState 3 (PeerMessage.newBlock ⟨9, 4⟩) =
        some (initState, [Effect.onNewBlock 3 9,
                          Effect.importNewBlock 3 ⟨9, 4⟩])) ∧
    (({ initState with mode := NetworkMode.stake }).mode.is_stake = true ∧
      on_peer_message { initState with mode := NetworkMode.stake } 3
          (PeerMessage.newBlockHashes [1, 2]) =
        some ({ initState with mode := NetworkMode.stake },
          [Effect.disconnect 3 (some DisconnectReason.subprotocolSpecific)]) ∧
      on_peer_message { initState with mode := NetworkMode.stake } 3
          (PeerMessage.newBlock ⟨9, 4⟩) =
        some ({ initState with mode := NetworkMode.stake },
          [Effect.disconnect 3 (some DisconnectReason.subprotocolSpecific)])) :=
  ⟨⟨rfl, (c3_eip3675_block_message_gating initState 3 [1, 2] ⟨9, 4⟩).2 rfl⟩,
   ⟨rfl, (c3_eip3675_block_message_gating
     { initState with mode := NetworkMode.stake } 3 [1, 2] ⟨9, 4⟩).1 rfl⟩⟩

/-- C6: the `Shutdown(done)` command performs, in this order: set the
connection state to `ShuttingDown`, call the session-manager
`disconnect_all(ClientQuitting)`, call `disconnect_all_pending`, then signal
completion on the done channel. -/
theorem c6_shutdown_sequence (orc : SessionsOracle) (st : ManagerState) (tx : Nat) :
    on_handle_message orc st (NetworkHandleMessage.shutdown tx) =
      ({ st with connState := NetworkConnectionState.shuttingDown },
       [Effect.onShutdownRequested,
        Effect.disconnectAll (some DisconnectReason.clientQuitting),
        Effect.disconnectAllPending,
        Effect.oneshotSend tx]) := rfl

/-- C7: eth-request try-send backpressure. With the bounded channel
configured and open: if the channel is full the request is dropped (the
channel content is unchanged, so there is no retry) and
`total_dropped_eth_requests_at_full_capacity` is incremented by exactly 1;
if there is capacity the request is enqueued and the counter is unchanged. -/
theorem c7_eth_request_full_drops_and_counts (st : ManagerState)
    (ch : EthRequestChannel) (event : IncomingEthRequest)
    (hch : st.toEthRequestHandler = some ch) (hopen : ch.closed = false) :
    (ch.capacity ≤ ch.queue.length →
      delegate_eth_request st event =
        { st with metrics := { st.metrics with totalDroppedEthRequestsAtFullCapacity := st.metrics.totalDroppedEthRequestsAtFullCapacity + 1 } }) ∧
    (ch.queue.length < ch.capacity →
      delegate_eth_request st event =
        { st with toEthRequestHandler := some ({ ch with queue := ch.queue ++ [event] }) }) := by
  constructor
  · intro hfull
    simp [delegate_eth_request, hch, hopen, Nat.not_lt.mpr hfull]
  · intro hroom
    simp [delegate_eth_request, hch, hopen, hroom]

/-- A concrete bounded eth-request channel at capacity (2 of 2 slots used). -/
def fullChannel : EthRequestChannel :=
  ⟨2, [IncomingEthRequest.getReceipts 1 1 1, IncomingEthRequest.getReceipts 2 2 2], false⟩

/-- A concrete manager state whose eth-request channel is `fullChannel`. -/
def fullChannelState : ManagerState :=
  { initState with toEthRequestHandler := some fullChannel }

/-- C7 witness: a channel of capacity 2 holding 2 requests drops the third
request, leaves the queue unchanged, and counts exactly one drop. -/
theorem c7_witness :
    fullChannelState.toEthRequestHandler = some fullChannel ∧
    fullChannel.capacity ≤ fullChannel.queue.length ∧
    delegate_eth_request fullChannelState (IncomingEthRequest.getBlockHeaders 3 3 3) =
      { fullChannelState with metrics := { fullChannelState.metrics with totalDroppedEthRequestsAtFullCapacity := fullChannelState.metrics.totalDroppedEthRequestsAtFullCapacity + 1 } } :=
  ⟨rfl, by decide,
   (c7_eth_request_full_drops_and_counts fullChannelState fullChannel
     (IncomingEthRequest.getBlockHeaders 3 3 3) rfl rfl).1 (by decide)⟩

/-- C9: unconfigured outbound channels make forwarding a no-op. If the
transactions-manager channel is absent, `notify_tx_manager` returns the
state unchanged; if the eth-request-handler channel is absent,
`delegate_eth_request` returns the state unchanged — in particular no metric
(including `total_dropped_eth_requests_at_full_capacity`) changes. -/
theorem c9_unconfigured_channels_are_noops (st : ManagerState)
    (tev : NetworkTransactionEvent) (eev : IncomingEthRequest) :
    (st.toTransactionsManager = none → notify_tx_manager st tev = st) ∧
    (st.toEthRequestHandler = none → delegate_eth_request st eev = st) := by
  constructor
  · intro h
    simp [notify_tx_manager, h]
  · intro h
    simp [delegate_eth_request, h]

/-- C9 witness: both no-ops at the initial state, where neither channel is
configured. -/
theorem c9_witness :
    initState.toTransactionsManager = none ∧
      notify_tx_manager initState (NetworkTransactionEvent.incomingTransactions 1 2) =
        initState ∧
      delegate_eth_request initState (IncomingEthRequest.getNodeData 1 2 3) =
        initState :=
  ⟨rfl,
   (c9_unconfigured_channels_are_noops initState
     (NetworkTransactionEvent.incomingTransactions 1 2)
     (IncomingEthRequest.getNodeData 1 2 3)).1 rfl,
   (c9_unconfigured_channels_are_noops initState
     (NetworkTransactionEvent.incomingTransactions 1 2)
     (IncomingEthRequest.getNodeData 1 2 3)).2 rfl⟩

/-- C10: on each of the four events that update the `backed_off_peers` gauge
(`SessionClosed`, `IncomingPendingSessionClosed`, `OutgoingPendingSessionClosed`,
`OutgoingConnectionError`) the manager sets the gauge to
`num_backed_off_peers().saturating_sub(1)` — one less than the peer-set
backed-off count (saturating at 0) rather than the count itself. -/
theorem c10_backed_off_peers_gauge_off_by_one (st : ManagerState)
    (peer : PeerId) (remoteAddr : Nat) (error : Option SessionError)
    (ioErr : Nat) :
    ((handle_swarm_event st (SwarmEvent.sessionClosed peer remoteAddr error)).map
        (fun r => r.1.metrics.backedOffPeers) =
      some (st.peers.numBackedOff - 1)) ∧
    ((handle_swarm_event st
        (SwarmEvent.incomingPendingSessionClosed remoteAddr error)).map
        (fun r => r.1.metrics.backedOffPeers) =
      some (st.peers.numBackedOff - 1)) ∧
    ((handle_swarm_event st
        (SwarmEvent.outgoingPendingSessionClosed remoteAddr peer error)).map
        (fun r => r.1.metrics.backedOffPeers) =
      some (st.peers.numBackedOff - 1)) ∧
    ((handle_swarm_event st
        (SwarmEvent.outgoingConnectionError remoteAddr peer ioErr)).map
        (fun r => r.1.metrics.backedOffPeers) =
      some (st.peers.numBackedOff - 1)) := by
  refine ⟨?_, ?_, ?_, ?_⟩ <;> cases error <;> simp [handle_swarm_event]

/-- C4 counterexample: the claim states that every `poll` invocation begins
all three phases, with the swarm-event loop running after the command drain;
but when the command channel reports closure, `poll` returns `Ready` during
phase 2: here one swarm event is available yet the returned trace is empty —
the swarm phase never began. -/
theorem c4_closed_channel_skips_swarm_phase :
    poll noForkOracle initState ⟨[], [], true, [SwarmEvent.tcpListenerClosed 0]⟩ =
      some (PollResult.ready, initState, [], false) := rfl

/-- C4 amended: in every `poll` invocation in which the command channel does
not report closure (and no handled event hits the `SendTransactions` panic
arm), the three phases run in the fixed order, each begun exactly once: the
trace is exactly all block-import outcomes, then all handle commands, then
the handled swarm events (the first min(1024, available)) — so no swarm event
is handled before the command channel is drained. -/
theorem c4_phase_order (orc : SessionsOracle) (st : ManagerState)
    (inp : PollInput) (hopen : inp.cmdsClosed = false)
    (hok : (inp.events.take 1024).all (fun e => !e.panicsOnHandle) = true) :
    ∃ st3 woke,
      poll orc st inp =
        some (PollResult.pending, st3,
          inp.imports.map Action.importOutcome ++
            inp.cmds.map Action.handleCmd ++
            (inp.events.take 1024).map Action.swarmEvent, woke) := by
  obtain ⟨st3, woke, hloop⟩ :=
    swarm_loop_trace inp.events (run_cmds orc (run_imports st inp.imports).1 inp.cmds).1
      1024 (by omega) hok
  refine ⟨st3, woke, ?_⟩
  simp [poll, hopen, hloop, run_imports_trace, run_cmds_trace]

/-- C4 witness: the amended theorem applied at a concrete input with one
block-import outcome, one command and one swarm event. -/
theorem c4_witness :
    (⟨[⟨1, BlockImportResult.error⟩], [NetworkHandleMessage.removePeer 2 0], false,
        [SwarmEvent.peerAdded 3]⟩ : PollInput).cmdsClosed = false ∧
    ((⟨[⟨1, BlockImportResult.error⟩], [NetworkHandleMessage.removePeer 2 0], false,
        [SwarmEvent.peerAdded 3]⟩ : PollInput).events.take 1024).all
      (fun e => !e.panicsOnHandle) = true ∧
    ∃ st3 woke,
      poll noForkOracle initState
          ⟨[⟨1, BlockImportResult.error⟩], [NetworkHandleMessage.removePeer 2 0],
            false, [SwarmEvent.peerAdded 3]⟩ =
        some (PollResult.pending, st3,
          [Action.importOutcome ⟨1, BlockImportResult.error⟩,
           Action.handleCmd (NetworkHandleMessage.removePeer 2 0),
           Action.swarmEvent (SwarmEvent.peerAdded 3)], woke) :=
  ⟨rfl, by decide,
   c4_phase_order noForkOracle initState
     ⟨[⟨1, BlockImportResult.error⟩], [NetworkHandleMessage.removePeer 2 0],
       false, [SwarmEvent.peerAdded 3]⟩ rfl (by decide)⟩

/-- C5 counterexample: the claim states `poll` returns `Pending` on every
input on which it does not return `Ready`; but on this input — channel open,
one `ValidMessage` carrying `SendTransactions` — the handler panics, so
`poll` returns neither `Ready` nor `Pending`. -/
theorem c5_panic_input_returns_nothing :
    poll noForkOracle initState
        ⟨[], [], false, [SwarmEvent.validMessage 0 (PeerMessage.sendTransactions 0)]⟩ =
      none := rfl

/-- C5 amended: `poll` returns `Ready` exactly when the handle-command
channel reports closure: on a closed channel it always returns `Ready`, and
on every input on which it returns at all, the result is `Ready` if and only
if the channel was closed (otherwise `Pending`); no swarm event,
block-import outcome or handle command causes a `Ready` return — though an
input reaching the `SendTransactions` panic arm makes `poll` abort rather
than return `Pending`. -/
theorem c5_ready_iff_channel_closed (orc : SessionsOracle) (st : ManagerState)
    (inp : PollInput) :
    (inp.cmdsClosed = true →
      ∃ st2 tr, poll orc st inp = some (PollResult.ready, st2, tr, false)) ∧
    (∀ res st2 tr woke, poll orc st inp = some (res, st2, tr, woke) →
      (res = PollResult.ready ↔ inp.cmdsClosed = true)) := by
  constructor
  · intro h
    refine ⟨(run_cmds orc (run_imports st inp.imports).1 inp.cmds).1,
      (run_imports st inp.imports).2 ++
        (run_cmds orc (run_imports st inp.imports).1 inp.cmds).2, ?_⟩
    simp [poll, h]
  · intro res st2 tr woke h
    by_cases hc : inp.cmdsClosed
    · simp only [poll, hc, if_true, Option.some.injEq, Prod.mk.injEq] at h
      exact ⟨fun _ => hc, fun _ => h.1.symm⟩
    · rw [Bool.not_eq_true] at hc
      simp only [poll, hc, Bool.false_eq_true, if_false] at h
      cases hloop : swarm_loop (run_cmds orc (run_imports st inp.imports).1 inp.cmds).1
          inp.events 1024 with
      | none => simp [hloop] at h
      | some r2 =>
          obtain ⟨st4, tr4, woke4⟩ := r2
          simp only [hloop, Option.some.injEq, Prod.mk.injEq] at h
          constructor
          · intro hres
            rw [hres] at h
            exact absurd h.1.symm (by simp)
          · intro hcl
            rw [hcl] at hc
            exact absurd hc (by simp)

/-- C5 witness: the amended theorem applied at a concrete closed-channel
input, on which `poll` returns `Ready`. -/
theorem c5_witness :
    (⟨[], [NetworkHandleMessage.getStatus 4], true, [SwarmEvent.peerAdded 3]⟩
      : PollInput).cmdsClosed = true ∧
    ∃ st2 tr,
      poll noForkOracle initState
          ⟨[], [NetworkHandleMessage.getStatus 4], true, [SwarmEvent.peerAdded 3]⟩ =
        some (PollResult.ready, st2, tr, false) :=
  ⟨rfl,
   (c5_ready_iff_channel_closed noForkOracle initState
     ⟨[], [NetworkHandleMessage.getStatus 4], true, [SwarmEvent.peerAdded 3]⟩).1 rfl⟩

/-- C8: the swarm phase of every `poll` invocation that returns handles at
most 1024 swarm events; the self-wakeup flag (`wake_by_ref` before breaking)
is set exactly when the budget reached zero, that is, exactly when 1024
events were handled, and in that case the invocation returns `Pending`. -/
theorem c8_swarm_budget (orc : SessionsOracle) (st : ManagerState)
    (inp : PollInput) (res : PollResult) (st3 : ManagerState) (tr : List Action)
    (woke : Bool) (h : poll orc st inp = some (res, st3, tr, woke)) :
    tr.countP (fun a => a.isSwarmEvent) ≤ 1024 ∧
    (woke = true ↔ tr.countP (fun a => a.isSwarmEvent) = 1024) ∧
    (woke = true → res = PollResult.pending) := by
  have himp : ∀ a ∈ (run_imports st inp.imports).2, a.isSwarmEvent = false := by
    rw [run_imports_trace]
    intro a ha
    obtain ⟨o, -, rfl⟩ := List.mem_map.mp ha
    rfl
  have hcmd : ∀ a ∈ (run_cmds orc (run_imports st inp.imports).1 inp.cmds).2,
      a.isSwarmEvent = false := by
    rw [run_cmds_trace]
    intro a ha
    obtain ⟨c, -, rfl⟩ := List.mem_map.mp ha
    rfl
  have himpcount : ((run_imports st inp.imports).2).countP
      (fun a => a.isSwarmEvent) = 0 :=
    List.countP_eq_zero.mpr (by intro a ha; simp [himp a ha])
  have hcmdcount : ((run_cmds orc (run_imports st inp.imports).1 inp.cmds).2).countP
      (fun a => a.isSwarmEvent) = 0 :=
    List.countP_eq_zero.mpr (by intro a ha; simp [hcmd a ha])
  by_cases hc : inp.cmdsClosed
  · simp only [poll, hc, if_true, Option.some.injEq, Prod.mk.injEq] at h
    obtain ⟨hres, -, htr, hwoke⟩ := h
    subst htr
    subst hwoke
    rw [List.countP_append, himpcount, hcmdcount]
    exact ⟨by omega, ⟨fun hw => by simp at hw, fun hl => absurd hl (by omega)⟩,
      fun hw => by simp at hw⟩
  · rw [Bool.not_eq_true] at hc
    simp only [poll, hc, Bool.false_eq_true, if_false] at h
    cases hloop : swarm_loop (run_cmds orc (run_imports st inp.imports).1 inp.cmds).1
        inp.events 1024 with
    | none => simp [hloop] at h
    | some r2 =>
        obtain ⟨st4, tr4, woke4⟩ := r2
        simp only [hloop, Option.some.injEq, Prod.mk.injEq] at h
        obtain ⟨hres, -, htr, hwoke⟩ := h
        subst htr
        subst hwoke
        have hall := swarm_loop_actions inp.events _ st4 1024 tr4 woke4 hloop
        have hlen := swarm_loop_budget inp.events _ st4 1024 tr4 woke4 (by omega) hloop
        have htr4count : tr4.countP (fun a => a.isSwarmEvent) = tr4.length :=
          List.countP_eq_length.mpr (by intro a ha; simp [hall a ha])
        rw [List.countP_append, List.countP_append, himpcount, hcmdcount, htr4count]
        refine ⟨by omega, ?_, fun _ => hres.symm⟩
        rw [hlen.2]
        omega

/-- C8 witness: the budget theorem applied to a concrete one-event run: one
swarm event handled, no self-wakeup, result `Pending`. -/
theorem c8_witness :
    poll noForkOracle initState ⟨[], [], false, [SwarmEvent.peerAdded 3]⟩ =
      some (PollResult.pending,
        { initState with eventBroadcasts := [NetworkEvent.peerAdded 3] },
        [Action.swarmEvent (SwarmEvent.peerAdded 3)], false) ∧
    ([Action.swarmEvent (SwarmEvent.peerAdded 3)].countP
        (fun a => a.isSwarmEvent) ≤ 1024 ∧
      (false = true ↔ [Action.swarmEvent (SwarmEvent.peerAdded 3)].countP
        (fun a => a.isSwarmEvent) = 1024) ∧
      (false = true → PollResult.pending = PollResult.pending)) :=
  ⟨by decide,
   c8_swarm_budget noForkOracle initState ⟨[], [], false, [SwarmEvent.peerAdded 3]⟩
     PollResult.pending
     { initState with eventBroadcasts := [NetworkEvent.peerAdded 3] }
     [Action.swarmEvent (SwarmEvent.peerAdded 3)] false (by decide)⟩

end RethNet
